import Mathlib

set_option linter.unusedVariables false

/-!
Verification of the performative-detector repository: a shallow embedding
of the gesture classifiers (`performative_detector.py`), the per-frame
debounce state machine in `PerformativeDetector.run`, and the Spotify
trigger logic (`spotify_controller.py`), together with theorems settling
the specification claims.

Conventions of the embedding:
- Normalized landmark coordinates and timestamps are exact rationals `ℚ`.
- The source compares `sqrt d < c`; since both sides are nonnegative this
  is embedded as the equivalent `d < c ^ 2` on squared distances, keeping
  every definition executable over `ℚ`.
- A detected hand is the 21 MediaPipe landmarks, a total map `Fin 21 → Landmark`.
- `image_shape` is the `(height, width)` pixel pair the Python functions
  receive; it is carried as a parameter exactly as in the source (bound,
  never used in the decision).
-/

/-- One tracked 2-D hand point in normalized coordinates, as produced by the
landmark source (MediaPipe): `lm.x`, `lm.y`. -/
structure Landmark where
  x : ℚ
  y : ℚ
deriving Repr, DecidableEq

/-- A detected hand: the fixed ordered sequence of 21 landmarks
(`hand_landmarks.landmark[i]`). -/
def Hand : Type := Fin 21 → Landmark

instance : DecidableEq Hand := by
  unfold Hand
  infer_instance

/-- Embedding of `PerformativeDetector.detect_single_hand_holding`.
Landmark indices follow the source: wrist 0, thumb tip 4, index MCP 5,
index tip 8, middle MCP 9, middle tip 12.  The source's
`thumb_dist = sqrt(dx^2 + dy^2)` and test `thumb_dist < 0.3` are embedded
by the equivalent squared comparison `dx^2 + dy^2 < 0.3 ^ 2`. -/
def detect_single_hand_holding (hand_landmarks : Hand) (image_shape : ℕ × ℕ) : Bool :=
  let wrist := hand_landmarks 0
  let thumb_tip := hand_landmarks 4
  let index_tip := hand_landmarks 8
  let middle_tip := hand_landmarks 12
  let index_mcp := hand_landmarks 5
  let middle_mcp := hand_landmarks 9
  let index_curled := index_tip.y > index_mcp.y - 0.08
  let middle_curled := middle_tip.y > middle_mcp.y - 0.08
  let thumb_dist_sq := (thumb_tip.x - index_tip.x) ^ 2 + (thumb_tip.y - index_tip.y) ^ 2
  if 0.1 < wrist.x ∧ wrist.x < 0.9 ∧ 0.1 < wrist.y ∧ wrist.y < 0.95 then
    if (index_curled ∨ middle_curled) ∧ thumb_dist_sq < (0.3 : ℚ) ^ 2 then
      true
    else
      false
  else
    false

/-- Centroid of a hand: mean of all 21 landmarks (`np.mean` over the
`x` and the `y` coordinates). -/
def handCenter (h : Hand) : ℚ × ℚ :=
  ((∑ i : Fin 21, (h i).x) / 21, (∑ i : Fin 21, (h i).y) / 21)

/-- Squared Euclidean distance between two points of the normalized plane. -/
def distSq (p q : ℚ × ℚ) : ℚ :=
  (p.1 - q.1) ^ 2 + (p.2 - q.2) ^ 2

/-- Embedding of `PerformativeDetector.detect_holding_gesture`.  The source
returns `False` for fewer than two hands, computes every hand's centroid,
then decides from the first two centroids only: distance (embedded squared)
strictly below `0.5` and midpoint inside `0.1 < x < 0.9`, `0.1 < y < 0.95`.
The inner wildcard arm mirrors the source's dead re-check
`if len(hand_centers) < 2: return False`. -/
def detect_holding_gesture (hand_landmarks_list : List Hand) (image_shape : ℕ × ℕ) : Bool :=
  if hand_landmarks_list.length < 2 then
    false
  else
    let hand_centers := hand_landmarks_list.map handCenter
    match hand_centers with
    | c0 :: c1 :: _ =>
      if distSq c0 c1 < (0.5 : ℚ) ^ 2 then
        let avg_x := (c0.1 + c1.1) / 2
        let avg_y := (c0.2 + c1.2) / 2
        if 0.1 < avg_x ∧ avg_x < 0.9 ∧ 0.1 < avg_y ∧ avg_y < 0.95 then
          true
        else
          false
      else
        false
    | _ => false

/-- Embedding of the per-frame signal computed in `PerformativeDetector.run`:
`holding_detected` starts `False` and is set to `True` whenever
`results.multi_hand_landmarks` is truthy, i.e. whenever the list of detected
hands is nonempty ("Simplified: Any hands detected = PERFORMATIVE!").
The geometric classifiers are not consulted. -/
def frame_holding_signal (multi_hand_landmarks : List Hand) : Bool :=
  if multi_hand_landmarks.isEmpty then false else true

/-- The per-frame signal as the specification describes it (for comparison
with `frame_holding_signal`): zero hands yield `false`, exactly one hand is
classified by the single-hand rule, two or more by the two-hand rule. -/
def claimed_frame_signal (multi_hand_landmarks : List Hand) (image_shape : ℕ × ℕ) : Bool :=
  match multi_hand_landmarks with
  | [] => false
  | [h] => detect_single_hand_holding h image_shape
  | hs => detect_holding_gesture hs image_shape

/-- Mutable per-frame state of `PerformativeDetector` as touched by the
debounce logic of `run` (lines 283-299): `is_holding`,
`holding_start_time`, `spotify_mode`, `spotify_mode_start_time`. -/
structure DetectorState where
  is_holding : Bool
  holding_start_time : Option ℚ
  spotify_mode : Bool
  spotify_mode_start_time : Option ℚ
deriving Repr, DecidableEq

/-- State at construction time (`__init__`): not holding, no timestamps. -/
def initDetectorState : DetectorState :=
  { is_holding := false
    holding_start_time := none
    spotify_mode := false
    spotify_mode_start_time := none }

/-- Calls the frame loop can make on the `SpotifyController`:
`play_juna` and `pause` (the loop only ever makes the former). -/
inductive DetectorCall where
  | playJuna : DetectorCall
  | pause : DetectorCall
deriving Repr, DecidableEq

/-- One iteration of the debounce block of `PerformativeDetector.run`
(lines 283-299), given whether `is_spotify_available()` holds, the
threshold `holding_duration_threshold`, the current state, the frame's
`holding_detected` signal and `current_time`.  Returns the updated state
and the list of `SpotifyController` calls the iteration makes. -/
def stepDetector (avail : Bool) (threshold : ℚ) (s : DetectorState)
    (holding_detected : Bool) (current_time : ℚ) : DetectorState × List DetectorCall :=
  if holding_detected then
    match s.holding_start_time with
    | none =>
      ({ s with holding_start_time := some current_time }, [])
    | some t0 =>
      if current_time - t0 > threshold then
        if s.is_holding then
          (s, [])
        else
          ({ s with
              is_holding := true
              spotify_mode := true
              spotify_mode_start_time := some current_time },
           if avail then [DetectorCall.playJuna] else [])
      else
        (s, [])
  else
    ({ s with holding_start_time := none, is_holding := false }, [])

/-- Iterate `stepDetector` over a list of frames, each a pair of the
frame's signal and its timestamp, collecting all controller calls. -/
def runDetector (avail : Bool) (threshold : ℚ) :
    DetectorState → List (Bool × ℚ) → DetectorState × List DetectorCall
  | s, [] => (s, [])
  | s, (sig, t) :: rest =>
    let step := stepDetector avail threshold s sig t
    let tail := runDetector avail threshold step.1 rest
    (tail.1, step.2 ++ tail.2)

/-- Value of `holding_duration_threshold` set in `__init__` (0.2 s). -/
def holding_duration_threshold : ℚ := 0.2

/-- Remote playback status as read from `sp.current_playback()`:
`itemUri` is the uri of `current['item']` when an item is present,
`isPlaying` is `current['is_playing']`.  A `None` reply from the query is
modelled by `Option PlaybackStatus` at the use sites. -/
structure PlaybackStatus where
  itemUri : Option String
  isPlaying : Bool
deriving Repr, DecidableEq

/-- Web-API commands `_play_juna_async` can issue. -/
inductive SpotifyCommand where
  | startPlayback : Option String → String → SpotifyCommand
deriving Repr, DecidableEq

/-- The value of `target_track_uri` fixed in `SpotifyController.__init__`. -/
def target_track_uri : String := "spotify:track:2mWfVxEo4xZYDaz0v7hYrN"

/-- Decision kernel of `SpotifyController._play_juna_async` (lines 94-100):
after querying `current_playback()`, skip the play command exactly when the
query returned a playback object with an item whose uri equals the target
and `is_playing` is true. -/
def already_playing_target (target : String) (current : Option PlaybackStatus) : Bool :=
  match current with
  | none => false
  | some st =>
    match st.itemUri with
    | none => false
    | some uri => uri = target && st.isPlaying

/-- Commands issued by `_play_juna_async` on the exception-free path, as a
function of the queried playback status: nothing when the target track is
already playing, otherwise a single `start_playback(device_id, [target])`. -/
def play_juna_async_commands (target : String) (device_id : Option String)
    (current : Option PlaybackStatus) : List SpotifyCommand :=
  if already_playing_target target current then
    []
  else
    [SpotifyCommand.startPlayback device_id target]

/-- Environment the background thread of `play_juna` runs against:
the queried playback status, whether the `current_playback()` query raises,
and whether the `start_playback` call raises. -/
structure SpotifyEnv where
  current : Option PlaybackStatus
  queryRaises : Bool
  startRaises : Bool
deriving Repr, DecidableEq

/-- Result of `SpotifyController._play_juna_async`: any exception on the
query or on `start_playback` is caught and turns into `False`; the no-op
path and the successful start return `True`. -/
def play_juna_async_result (target : String) (env : SpotifyEnv) : Bool :=
  if env.queryRaises then
    false
  else if already_playing_target target env.current then
    true
  else if env.startRaises then
    false
  else
    true

/-- Embedding of `SpotifyController.play_juna`: when `self.sp` is `None`
the call returns `False` and spawns nothing; otherwise it spawns the
background attempt — whose boolean result is recorded here as the second
component but never read by any caller — and returns `True` immediately. -/
def play_juna (sp_is_set : Bool) (target : String) (env : SpotifyEnv) :
    Bool × Option Bool :=
  if sp_is_set then
    (true, some (play_juna_async_result target env))
  else
    (false, none)

/-- Hand with every landmark at the origin: the wrist lies outside the
center rectangle, so the single-hand rule rejects it. -/
def originHand : Hand := fun _ => ⟨0, 0⟩

/-- Concrete hand for the single-hand classifier: index fingertip well
above its knuckle (not curled), middle fingertip curled, thumb close to
the index tip, wrist centered. -/
def mixedCurlHand : Hand := fun i =>
  if i.val = 8 then ⟨1/2, 3/10⟩
  else if i.val = 12 then ⟨1/2, 3/5⟩
  else if i.val = 4 then ⟨1/2, 7/20⟩
  else ⟨1/2, 1/2⟩

/-- Hand with all landmarks at `(1/5, 1/2)`; its centroid is `(1/5, 1/2)`. -/
def leftHand : Hand := fun _ => ⟨1/5, 1/2⟩

/-- Hand with all landmarks at `(4/5, 1/2)`; its centroid is `(4/5, 1/2)`. -/
def rightHand : Hand := fun _ => ⟨4/5, 1/2⟩

theorem fin21_val_0 : ((0 : Fin 21) : ℕ) = 0 := rfl

theorem fin21_val_4 : ((4 : Fin 21) : ℕ) = 4 := rfl

theorem fin21_val_5 : ((5 : Fin 21) : ℕ) = 5 := rfl

theorem fin21_val_8 : ((8 : Fin 21) : ℕ) = 8 := rfl

theorem fin21_val_9 : ((9 : Fin 21) : ℕ) = 9 := rfl

theorem fin21_val_12 : ((12 : Fin 21) : ℕ) = 12 := rfl

/-- The centroid of a hand whose 21 landmarks coincide is that landmark. -/
theorem handCenter_const (p : Landmark) : handCenter (fun _ => p) = (p.x, p.y) := by
  unfold handCenter
  simp [Finset.sum_const, Finset.card_univ]

/-- A frame with signal false clears `holding_start_time`, forces
`is_holding` to false, leaves the Spotify fields alone and makes no
controller call. -/
theorem stepDetector_false (avail : Bool) (threshold : ℚ) (s : DetectorState) (t : ℚ) :
    stepDetector avail threshold s false t =
      ({ s with is_holding := false, holding_start_time := none }, []) := by
  simp [stepDetector]

/-- A true frame from a state with no pending timestamp records it. -/
theorem stepDetector_true_none (avail : Bool) (threshold : ℚ) (s : DetectorState) (t : ℚ)
    (h : s.holding_start_time = none) :
    stepDetector avail threshold s true t =
      ({ s with holding_start_time := some t }, []) := by
  simp [stepDetector, h]

/-- A true frame within the threshold of the pending timestamp changes
nothing. -/
theorem stepDetector_true_some_le (avail : Bool) (threshold : ℚ) (s : DetectorState)
    (t t0 : ℚ) (h : s.holding_start_time = some t0) (hle : t - t0 ≤ threshold) :
    stepDetector avail threshold s true t = (s, []) := by
  simp [stepDetector, h, not_lt.mpr hle]

/-- A true frame past the threshold from a not-yet-holding state makes the
confirming transition and calls `play_juna` when Spotify is available. -/
theorem stepDetector_true_confirm (avail : Bool) (threshold : ℚ) (s : DetectorState)
    (t t0 : ℚ) (h : s.holding_start_time = some t0) (hgt : t - t0 > threshold)
    (hh : s.is_holding = false) :
    stepDetector avail threshold s true t =
      ({ s with
          is_holding := true
          spotify_mode := true
          spotify_mode_start_time := some t },
       if avail then [DetectorCall.playJuna] else []) := by
  simp [stepDetector, h, hgt, hh]

/-- A true frame from a holding state never calls the controller and
preserves `is_holding` and both Spotify fields. -/
theorem stepDetector_true_of_holding (avail : Bool) (threshold : ℚ) (s : DetectorState)
    (t : ℚ) (hh : s.is_holding = true) :
    (stepDetector avail threshold s true t).2 = [] ∧
    (stepDetector avail threshold s true t).1.is_holding = true ∧
    (stepDetector avail threshold s true t).1.spotify_mode = s.spotify_mode ∧
    (stepDetector avail threshold s true t).1.spotify_mode_start_time =
      s.spotify_mode_start_time := by
  unfold stepDetector
  cases h : s.holding_start_time with
  | none => simp [hh]
  | some t0 =>
    by_cases hgt : t - t0 > threshold
    · simp [hh, hgt]
    · simp [hh, hgt]

theorem runDetector_nil (avail : Bool) (threshold : ℚ) (s : DetectorState) :
    runDetector avail threshold s [] = (s, []) := rfl

theorem runDetector_cons (avail : Bool) (threshold : ℚ) (s : DetectorState)
    (sig : Bool) (t : ℚ) (rest : List (Bool × ℚ)) :
    runDetector avail threshold s ((sig, t) :: rest) =
      ((runDetector avail threshold (stepDetector avail threshold s sig t).1 rest).1,
       (stepDetector avail threshold s sig t).2 ++
         (runDetector avail threshold (stepDetector avail threshold s sig t).1 rest).2) := rfl

/-- While holding, a run of true frames makes no controller call and
preserves `is_holding` and both Spotify fields. -/
theorem runDetector_holding_absorbs (avail : Bool) (threshold : ℚ) :
    ∀ (ts : List ℚ) (s : DetectorState), s.is_holding = true →
      (runDetector avail threshold s (ts.map fun t => (true, t))).2 = [] ∧
      (runDetector avail threshold s (ts.map fun t => (true, t))).1.is_holding = true ∧
      (runDetector avail threshold s (ts.map fun t => (true, t))).1.spotify_mode =
        s.spotify_mode ∧
      (runDetector avail threshold s (ts.map fun t => (true, t))).1.spotify_mode_start_time =
        s.spotify_mode_start_time := by
  intro ts
  induction ts with
  | nil =>
    intro s hs
    simp [runDetector_nil, hs]
  | cons t ts ih =>
    intro s hs
    obtain ⟨hcall, hhold, hmode, hsm⟩ :=
      stepDetector_true_of_holding avail threshold s t hs
    obtain ⟨ihcall, ihhold, ihmode, ihsm⟩ :=
      ih (stepDetector avail threshold s true t).1 hhold
    rw [List.map_cons, runDetector_cons]
    refine ⟨by simp [hcall, ihcall], ihhold, ?_, ?_⟩
    · rw [ihmode, hmode]
    · rw [ihsm, hsm]

/-- A pending state sees only true frames all within the threshold of its
pending timestamp: nothing changes and no call is made. -/
theorem runDetector_pending_stall (avail : Bool) (threshold t0 : ℚ) (m : Bool)
    (mt : Option ℚ) :
    ∀ us : List ℚ, (∀ u ∈ us, u - t0 ≤ threshold) →
      runDetector avail threshold ⟨false, some t0, m, mt⟩ (us.map fun u => (true, u)) =
        (⟨false, some t0, m, mt⟩, []) := by
  intro us
  induction us with
  | nil =>
    intro _
    rfl
  | cons u us ih =>
    intro h
    rw [List.map_cons, runDetector_cons,
      stepDetector_true_some_le avail threshold _ u t0 rfl (h u (by simp))]
    simp [ih fun v hv => h v (by simp [hv])]

/-- A pending state fed only true frames, at least one of them past the
threshold, confirms: exactly one `play_juna` call in total, the final
state is holding, and `spotify_mode_start_time` records the timestamp of
a frame past the threshold. -/
theorem runDetector_pending_confirm (threshold t0 : ℚ) (m : Bool) (mt : Option ℚ) :
    ∀ us : List ℚ, (∃ u ∈ us, u - t0 > threshold) →
      (runDetector true threshold ⟨false, some t0, m, mt⟩
          (us.map fun u => (true, u))).2 = [DetectorCall.playJuna] ∧
      (runDetector true threshold ⟨false, some t0, m, mt⟩
          (us.map fun u => (true, u))).1.is_holding = true ∧
      ∃ u ∈ us, u - t0 > threshold ∧
        (runDetector true threshold ⟨false, some t0, m, mt⟩
            (us.map fun u => (true, u))).1.spotify_mode_start_time = some u := by
  intro us
  induction us with
  | nil =>
    rintro ⟨u, hu, _⟩
    cases hu
  | cons u us ih =>
    intro h
    by_cases hgt : u - t0 > threshold
    · rw [List.map_cons, runDetector_cons,
        stepDetector_true_confirm true threshold _ u t0 rfl hgt rfl]
      obtain ⟨hcall, hhold, hmode, hsm⟩ :=
        runDetector_holding_absorbs true threshold us ⟨true, some t0, true, some u⟩ rfl
      refine ⟨by simp [hcall], hhold, u, by simp, hgt, by simp [hsm]⟩
    · obtain ⟨v, hv, hvgt⟩ := h
      have hv' : v ∈ us := by
        rcases List.mem_cons.mp hv with h1 | h2
        · exact absurd (h1 ▸ hvgt) hgt
        · exact h2
      obtain ⟨ihcall, ihhold, w, hw, hwgt, ihsm⟩ := ih ⟨v, hv', hvgt⟩
      rw [List.map_cons, runDetector_cons,
        stepDetector_true_some_le true threshold _ u t0 rfl (not_lt.mp hgt)]
      exact ⟨by simp [ihcall], ihhold, w, by simp [hw], hwgt, ihsm⟩

/-- C1 counterexample: a frame with exactly one detected hand whose
single-hand classification is false (all landmarks at the origin, wrist
outside the center rectangle) still yields a true per-frame signal,
because `run` sets `holding_detected = True` for any nonempty hand list
and never consults the geometric rules. -/
theorem c1_counterexample :
    frame_holding_signal [originHand] = true ∧
    claimed_frame_signal [originHand] (720, 1280) = false := by
  constructor
  · rfl
  · show detect_single_hand_holding originHand (720, 1280) = false
    norm_num [detect_single_hand_holding, originHand]

/-- C1 (amended): the per-frame holding signal fed to the debounce state
machine is false for zero detected hands and true for one or more
detected hands; the single-hand and two-hand geometric rules are not
consulted. -/
theorem c1_signal_any_hand :
    frame_holding_signal [] = false ∧
    ∀ (h : Hand) (hs : List Hand), frame_holding_signal (h :: hs) = true :=
  ⟨rfl, fun _ _ => rfl⟩

/-- C2 counterexample: a hand whose index fingertip is above its knuckle
minus the 0.08 slack (so the claim demands a false result) but whose
middle finger is curled, thumb close to index and wrist centered, is
classified as holding: the source combines the two curl tests with OR,
not AND. -/
theorem c2_counterexample :
    detect_single_hand_holding mixedCurlHand (720, 1280) = true ∧
    (mixedCurlHand 8).y ≤ (mixedCurlHand 5).y - 0.08 := by
  constructor
  · norm_num [detect_single_hand_holding, mixedCurlHand,
      fin21_val_0, fin21_val_4, fin21_val_5, fin21_val_8, fin21_val_9, fin21_val_12]
  · norm_num [mixedCurlHand, fin21_val_5, fin21_val_8]

/-- C2 (amended): `detect_single_hand_holding` returns true iff the wrist
lies in the rectangle `x ∈ (0.1, 0.9)`, `y ∈ (0.1, 0.95)`, AND at least
one of the index and middle fingertips lies strictly below (larger
normalized y than) its knuckle minus the slack 0.08, AND the squared
thumb-tip-to-index-tip distance is below `0.3 ^ 2`. -/
theorem c2_single_hand_rule (hand : Hand) (image_shape : ℕ × ℕ) :
    detect_single_hand_holding hand image_shape = true ↔
      (0.1 < (hand 0).x ∧ (hand 0).x < 0.9 ∧ 0.1 < (hand 0).y ∧ (hand 0).y < 0.95) ∧
      ((hand 8).y > (hand 5).y - 0.08 ∨ (hand 12).y > (hand 9).y - 0.08) ∧
      ((hand 4).x - (hand 8).x) ^ 2 + ((hand 4).y - (hand 8).y) ^ 2 < (0.3 : ℚ) ^ 2 := by
  simp only [detect_single_hand_holding]
  split_ifs with h1 h2
  · simp only [true_iff]
    exact ⟨h1, h2⟩
  · simp only [Bool.false_eq_true, false_iff]
    intro hc
    exact h2 ⟨hc.2.1, hc.2.2⟩
  · simp only [Bool.false_eq_true, false_iff]
    intro hc
    exact h1 hc.1

/-- C3 counterexample: with threshold 0.2 s and frames at times 0, 1
(signal true) and 2 (signal false), after the second frame the machine is
HOLDING with `holding_start_time` still set (the claim allows it set only
while pending), and after the false frame it is back to NOT_HOLDING with
`spotify_mode_start_time` still set to 1 (the claim demands it cleared). -/
theorem c3_counterexample :
    (runDetector true (1/5) initDetectorState [(true, 0), (true, 1)]).1 =
      ⟨true, some 0, true, some 1⟩ ∧
    (runDetector true (1/5) initDetectorState [(true, 0), (true, 1), (false, 2)]).1 =
      ⟨false, none, true, some 1⟩ := by
  constructor <;>
    norm_num [runDetector, stepDetector, initDetectorState]

/-- C3 (amended): after every frame, `holding_start_time` is set on a
true-signal frame (pending or holding) and cleared on a false-signal
frame; `spotify_mode_start_time` is set to the frame time exactly on each
transition into HOLDING, is unchanged on every other frame — in
particular it is NOT cleared on the transition back to NOT_HOLDING. -/
theorem c3_state_fields (avail : Bool) (threshold : ℚ) (s : DetectorState) (t : ℚ) :
    ((stepDetector avail threshold s true t).1.holding_start_time ≠ none) ∧
    ((stepDetector avail threshold s false t).1.holding_start_time = none ∧
     (stepDetector avail threshold s false t).1.spotify_mode_start_time =
       s.spotify_mode_start_time) ∧
    (s.is_holding = false → (stepDetector avail threshold s true t).1.is_holding = true →
      (stepDetector avail threshold s true t).1.spotify_mode_start_time = some t) ∧
    (s.is_holding = false → (stepDetector avail threshold s true t).1.is_holding = false →
      (stepDetector avail threshold s true t).1.spotify_mode_start_time =
        s.spotify_mode_start_time) ∧
    (s.is_holding = true →
      (stepDetector avail threshold s true t).1.spotify_mode_start_time =
        s.spotify_mode_start_time) := by
  refine ⟨?_, ⟨by rw [stepDetector_false], by rw [stepDetector_false]⟩, ?_, ?_, ?_⟩
  · unfold stepDetector
    cases h : s.holding_start_time with
    | none => simp
    | some t0 =>
      by_cases hgt : t - t0 > threshold
      · by_cases hh : s.is_holding <;> simp [h, hgt, hh]
      · simp [h, hgt]
  · intro hh hh'
    unfold stepDetector at hh' ⊢
    cases h : s.holding_start_time with
    | none =>
      rw [h] at hh'
      simp [hh] at hh'
    | some t0 =>
      by_cases hgt : t - t0 > threshold
      · simp [h, hgt, hh]
      · rw [h] at hh'
        simp [hgt, hh] at hh'
  · intro hh hh'
    unfold stepDetector at hh' ⊢
    cases h : s.holding_start_time with
    | none => simp [h]
    | some t0 =>
      by_cases hgt : t - t0 > threshold
      · rw [h] at hh'
        simp [hgt, hh] at hh'
      · simp [h, hgt]
  · intro hh
    exact (stepDetector_true_of_holding avail threshold s t hh).2.2.2

/-- C3 witness: on the confirming transition the spotify-mode timestamp is
recorded as the frame time. -/
theorem c3_witness :
    (stepDetector true (1/5) ⟨false, some 0, false, none⟩ true 1).1.spotify_mode_start_time =
      some 1 :=
  (c3_state_fields true (1/5) ⟨false, some 0, false, none⟩ 1).2.2.1 rfl
    (by norm_num [stepDetector])

/-- C4: starting from NOT_HOLDING, if the signal is true on every frame of
an interval of frames whose span strictly exceeds the threshold (with
Spotify available), the run makes exactly one `play_juna` call — so the
machine transitions into HOLDING exactly once, ends holding, and
`spotify_mode_start_time` records the timestamp of the transition frame
(a frame more than the threshold after the first). -/
theorem c4_confirm_once (threshold t0 tl : ℚ) (rest : List ℚ)
    (hmem : tl ∈ rest) (hgt : tl - t0 > threshold) :
    (runDetector true threshold initDetectorState
        ((t0 :: rest).map fun u => (true, u))).2 = [DetectorCall.playJuna] ∧
    (runDetector true threshold initDetectorState
        ((t0 :: rest).map fun u => (true, u))).1.is_holding = true ∧
    ∃ u ∈ rest, u - t0 > threshold ∧
      (runDetector true threshold initDetectorState
          ((t0 :: rest).map fun u => (true, u))).1.spotify_mode_start_time = some u := by
  rw [List.map_cons, runDetector_cons,
    stepDetector_true_none true threshold initDetectorState t0 rfl]
  have hs : ({ initDetectorState with holding_start_time := some t0 } : DetectorState) =
      ⟨false, some t0, false, none⟩ := rfl
  rw [hs]
  have h := runDetector_pending_confirm threshold t0 false none rest ⟨tl, hmem, hgt⟩
  exact ⟨by simp [h.1], h.2.1, h.2.2⟩

/-- C4 witness: two true frames at times 0 and 1 with threshold 0.2 s make
exactly one `play_juna` call. -/
theorem c4_witness :
    (runDetector true (1/5) initDetectorState
        (([0, 1] : List ℚ).map fun u => (true, u))).2 = [DetectorCall.playJuna] :=
  (c4_confirm_once (1/5) 0 1 [1] (by simp) (by norm_num)).1

/-- C5: a false-signal frame resets `holding_start_time` to `None` in any
state, and afterwards a run of true frames confirms nothing as long as
every frame stays within the threshold of the FIRST true frame after the
reset: true durations accumulated before the false frame are discarded. -/
theorem c5_reset_on_false (avail : Bool) (threshold : ℚ) (s : DetectorState) (t : ℚ)
    (m : Bool) (mt : Option ℚ) (u0 : ℚ) (us : List ℚ)
    (hin : ∀ u ∈ us, u - u0 ≤ threshold) :
    (stepDetector avail threshold s false t).1.holding_start_time = none ∧
    runDetector avail threshold ⟨false, none, m, mt⟩
        ((u0 :: us).map fun u => (true, u)) = (⟨false, some u0, m, mt⟩, []) := by
  constructor
  · rw [stepDetector_false]
  · rw [List.map_cons, runDetector_cons,
      stepDetector_true_none avail threshold _ u0 rfl]
    have hs : ({ (⟨false, none, m, mt⟩ : DetectorState) with
        holding_start_time := some u0 } : DetectorState) =
        ⟨false, some u0, m, mt⟩ := rfl
    rw [hs, runDetector_pending_stall avail threshold u0 m mt us hin]
    rfl

/-- C5 witness: after a reset, true frames at 0 and 0.1 (within the 0.2 s
threshold of the new first true frame) leave the machine pending with no
call. -/
theorem c5_witness :
    runDetector true (1/5) ⟨false, none, false, none⟩
        (([0, 1/10] : List ℚ).map fun u => (true, u)) =
      (⟨false, some 0, false, none⟩, []) :=
  (c5_reset_on_false true (1/5) initDetectorState 0 false none 0 [1/10]
      (by intro u hu; rw [List.mem_singleton] at hu; subst hu; norm_num)).2

/-- C6: the two-hand classifier is false on zero or one hand; on two or
more hands it is true iff the squared distance of the first two centroids
is below `0.5 ^ 2` and their midpoint lies in the rectangle
`x ∈ (0.1, 0.9)`, `y ∈ (0.1, 0.95)`; and whenever the squared centroid
distance is at least `0.5 ^ 2` it is false regardless of position. -/
theorem c6_two_hand_rule (image_shape : ℕ × ℕ) (h h0 h1 : Hand) (rest : List Hand) :
    detect_holding_gesture [] image_shape = false ∧
    detect_holding_gesture [h] image_shape = false ∧
    (detect_holding_gesture (h0 :: h1 :: rest) image_shape = true ↔
      distSq (handCenter h0) (handCenter h1) < (0.5 : ℚ) ^ 2 ∧
      0.1 < ((handCenter h0).1 + (handCenter h1).1) / 2 ∧
      ((handCenter h0).1 + (handCenter h1).1) / 2 < 0.9 ∧
      0.1 < ((handCenter h0).2 + (handCenter h1).2) / 2 ∧
      ((handCenter h0).2 + (handCenter h1).2) / 2 < 0.95) ∧
    ((0.5 : ℚ) ^ 2 ≤ distSq (handCenter h0) (handCenter h1) →
      detect_holding_gesture (h0 :: h1 :: rest) image_shape = false) := by
  have hlen : ¬ (h0 :: h1 :: rest : List Hand).length < 2 := by
    simp [List.length_cons]
  refine ⟨rfl, rfl, ?_, ?_⟩
  · simp only [detect_holding_gesture, if_neg hlen, List.map_cons]
    split_ifs with hd hc
    · simp only [true_iff]
      exact ⟨hd, hc.1, hc.2.1, hc.2.2.1, hc.2.2.2⟩
    · simp only [Bool.false_eq_true, false_iff]
      intro hcon
      exact hc ⟨hcon.2.1, hcon.2.2.1, hcon.2.2.2.1, hcon.2.2.2.2⟩
    · simp only [Bool.false_eq_true, false_iff]
      intro hcon
      exact hd hcon.1
  · intro hge
    simp only [detect_holding_gesture, if_neg hlen, List.map_cons]
    rw [if_neg (not_lt.mpr hge)]

/-- C6 witness: two hands whose centroids are `(1/5, 1/2)` and
`(4/5, 1/2)` — squared distance `9/25 ≥ 1/4` — are classified as not
holding. -/
theorem c6_witness :
    detect_holding_gesture [leftHand, rightHand] (720, 1280) = false :=
  (c6_two_hand_rule (720, 1280) leftHand leftHand rightHand []).2.2.2 (by
    unfold leftHand rightHand
    rw [handCenter_const, handCenter_const]
    norm_num [distSq])

/-- The skip condition of `_play_juna_async` holds exactly when the query
reported the target track as the current item with playback active. -/
theorem already_playing_target_iff (target : String) (current : Option PlaybackStatus) :
    already_playing_target target current = true ↔
      ∃ st : PlaybackStatus, current = some st ∧ st.itemUri = some target ∧
        st.isPlaying = true := by
  cases current with
  | none => simp [already_playing_target]
  | some st =>
    cases hst : st.itemUri with
    | none => simp [already_playing_target, hst]
    | some uri =>
      simp only [already_playing_target, hst, Bool.and_eq_true, decide_eq_true_eq,
        Option.some.injEq]
      constructor
      · rintro ⟨he, hp⟩
        exact ⟨st, rfl, by rw [hst, he], hp⟩
      · rintro ⟨st2, hst2, hi, hp⟩
        cases hst2
        rw [hst] at hi
        exact ⟨Option.some.inj hi, hp⟩

/-- C7: the background play attempt decides from the queried playback
status: it issues no command exactly when the query reported the target
track as the current item with playback active, and otherwise issues
exactly one `start_playback` of the target track on the configured
device. -/
theorem c7_trigger_idempotent (target : String) (device_id : Option String)
    (current : Option PlaybackStatus) :
    (play_juna_async_commands target device_id current = [] ↔
      ∃ st : PlaybackStatus, current = some st ∧ st.itemUri = some target ∧
        st.isPlaying = true) ∧
    (play_juna_async_commands target device_id current = [] ∨
      play_juna_async_commands target device_id current =
        [SpotifyCommand.startPlayback device_id target]) := by
  constructor
  · unfold play_juna_async_commands
    by_cases hap : already_playing_target target current = true
    · rw [if_pos hap]
      exact iff_of_true rfl ((already_playing_target_iff target current).mp hap)
    · rw [if_neg hap]
      refine iff_of_false (by simp) ?_
      intro hex
      exact hap ((already_playing_target_iff target current).mpr hex)
  · unfold play_juna_async_commands
    by_cases hap : already_playing_target target current = true <;> simp [hap]

/-- C8: when the signal turns false while HOLDING, the frame clears
`holding_start_time`, drops `is_holding`, leaves `spotify_mode` and
`spotify_mode_start_time` (and so the remote playback state) untouched,
and makes no controller call at all — in particular no `pause`. -/
theorem c8_release_no_stop (avail : Bool) (threshold : ℚ) (s : DetectorState) (t : ℚ)
    (hh : s.is_holding = true) :
    (stepDetector avail threshold s false t).1 =
      { s with is_holding := false, holding_start_time := none } ∧
    (stepDetector avail threshold s false t).2 = [] ∧
    DetectorCall.pause ∉ (stepDetector avail threshold s false t).2 := by
  rw [stepDetector_false]
  exact ⟨rfl, rfl, by simp⟩

/-- C8 witness: a holding state released at time 5 issues no call. -/
theorem c8_witness :
    (stepDetector true (1/5) ⟨true, some 0, true, some 0⟩ false 5).2 = [] :=
  (c8_release_no_stop true (1/5) ⟨true, some 0, true, some 0⟩ 5 rfl).2.1

/-- C9: `play_juna` returns true exactly when the Spotify client was
initialized and false exactly when not; the returned value does not
depend on the environment the background attempt runs against, and a
failing background attempt (result false) still leaves the caller with
true. -/
theorem c9_play_juna_return (sp_is_set : Bool) (target : String)
    (env env2 : SpotifyEnv) :
    ((play_juna sp_is_set target env).1 = true ↔ sp_is_set = true) ∧
    ((play_juna sp_is_set target env).1 = false ↔ sp_is_set = false) ∧
    (play_juna sp_is_set target env).1 = (play_juna sp_is_set target env2).1 ∧
    ((play_juna true target ⟨none, false, true⟩).1 = true ∧
      (play_juna true target ⟨none, false, true⟩).2 = some false) := by
  cases sp_is_set <;>
    simp [play_juna, play_juna_async_result, already_playing_target]

/-- C10: `detect_holding_gesture` is independent of the `image_shape`
argument: any two frame pixel dimensions give the same classification of
the same hand list. -/
theorem c10_shape_independent (hands : List Hand) (shape1 shape2 : ℕ × ℕ) :
    detect_holding_gesture hands shape1 = detect_holding_gesture hands shape2 := rfl
